import Mathlib

/-!
Shallow embedding of the UT1 timetable scraper core (src/main.rs of the
ut1-timetable repository): the geometry-to-time decoder `convert_events`,
the event-text parser `parse_event`, the per-week worker body spawned by
`scrape_ut1_planning`, and the orchestrator's merge loop.

Modelling conventions:
* Rust `&str` values are Lean `String`s.  Rust `str::split(pat)` is
  modelled by `str_split` below, an executable fuel-based splitter with
  the same semantics for non-empty patterns (the only patterns the
  program uses).
* `chrono::NaiveDateTime` values are modelled as unbounded integers
  counting minutes since an epoch whose day 0 is a Monday, so that
  chrono's `num_days_from_monday` is `d mod 7` (Euclidean).  `chrono`
  additions would panic once a date leaves chrono's representable range
  (about year 262143); the model lets such astronomically large values
  exist and theorems that depend on realistic dates carry explicit
  bounds.
* Machine integers are Lean `Int`/`Nat` with explicit wrap-around where
  the code can overflow: the `u32` subtraction `week - real_week`
  (release-profile wrapping semantics) is `mod 2^32` arithmetic in
  `week_overflow`.  Rust `i64` division truncates toward zero and is
  modelled by `Int.tdiv`.
* The expressions `planning_container[k] as f32 / 28.0 ... as i64` first
  round the real quotient to the nearest `f32` and then truncate toward
  zero.  For |dividend| < 2^24 the rounding error is below the distance
  from the true quotient to the nearest integer on the other side (the
  quotient of an exactly representable integer by 7 or 28 is either
  exact or at least 1/28 away from an integer, while the f32 error is
  under (2^24/28)·2^-24 = 1/28), so the combined operation equals
  integer division truncating toward zero; it is modelled as `Int.tdiv`.
  Every concrete container in this development is far below that bound.
* Fallible Rust code returns `Except Fail _`: `anyhow` `Err` values are
  `Fail.err msg`, and panics (out-of-bounds `Vec` indexing or
  `Vec::remove`, `unwrap` on `None`, integer division by zero, failed
  `parse`) are `Fail.panic`.
* Browser interaction is the external boundary: a worker's dealings with
  its tab are summarised by a `TabFetch` value (either some page-accessor
  error, which makes the spawned task return `Err`, or the list of
  (style, height-style, text-content) attribute triples it collected).
  Wall-clock readings (`chrono::Local::now()`) are passed explicitly as
  the day number `nowDay` and the ISO week numbers `week0`/`realWeek`.
-/

/-- Boolean test that `sep` is a prefix of the second list (used by the
splitter to detect a pattern occurrence). -/
def isPrefixList : List Char → List Char → Bool
  | [], _ => true
  | _ :: _, [] => false
  | c :: cs, d :: ds => c == d && isPrefixList cs ds

/-- Fuel-based scanner behind `str_split`: emits the accumulated piece
(reversed) each time `sep` occurs, consuming the occurrence.  Fuel at
least `length + 1` makes the fuel-exhausted branch unreachable. -/
def split_go (sep : List Char) : Nat → List Char → List Char → List (List Char)
  | 0, cur, _ => [cur.reverse]
  | _ + 1, cur, [] => [cur.reverse]
  | fuel + 1, cur, c :: rest =>
    if isPrefixList sep (c :: rest) then
      cur.reverse :: split_go sep fuel [] (List.drop (sep.length - 1) rest)
    else
      split_go sep fuel (c :: cur) rest

/-- Model of Rust `str::split(sep)` collected to a vector, for a non-empty
separator: splits at every non-overlapping occurrence of `sep`, scanning
left to right; always yields at least one piece. -/
def str_split (s sep : String) : List String :=
  if sep.toList.isEmpty then [s]
  else (split_go sep.toList (s.toList.length + 1) [] s.toList).map (fun l => String.mk l)

/-- Accumulating decimal reader: `some` of the value when every character
is a digit, `none` otherwise. -/
def dec_val : List Char → Nat → Option Nat
  | [], acc => some acc
  | c :: cs, acc => if c.isDigit then dec_val cs (acc * 10 + (c.toNat - 48)) else none

/-- Model of Rust `str::parse::<i32>()`: an optional sign followed by at
least one digit, with the value required to fit in 32 bits. -/
def parse_i32 (s : String) : Option Int :=
  match s.toList with
  | [] => none
  | '-' :: rest =>
    match rest, dec_val rest 0 with
    | [], _ => none
    | _ :: _, some n => if n ≤ 2147483648 then some (-(n : Int)) else none
    | _ :: _, none => none
  | '+' :: rest =>
    match rest, dec_val rest 0 with
    | [], _ => none
    | _ :: _, some n => if n ≤ 2147483647 then some (n : Int) else none
    | _ :: _, none => none
  | l =>
    match dec_val l 0 with
    | some n => if n ≤ 2147483647 then some (n : Int) else none
    | none => none

/-- Failure of a fallible computation: `err` is an ordinary `anyhow`
error value, `panic` is a Rust panic (out-of-bounds indexing or removal,
`unwrap` on `None`, division by zero, failed integer parse). -/
inductive Fail where
  | panic : Fail
  | err : String → Fail
  deriving DecidableEq, Repr

/-- Model of anyhow `Option::context(msg)?`: `none` becomes an error
carrying `msg`. -/
def ctx {α : Type} (o : Option α) (msg : String) : Except Fail α :=
  match o with
  | some a => Except.ok a
  | none => Except.error (Fail.err msg)

/-- Model of Rust `Vec` indexing `v[i]`, which panics when out of
bounds. -/
def idx {α : Type} (l : List α) (i : Nat) : Except Fail α :=
  match l[i]? with
  | some a => Except.ok a
  | none => Except.error Fail.panic

/-- Function `parse_int` (src/main.rs:459): when the string contains
"px" the piece before the first "px" is parsed, otherwise the whole
string; a failed parse panics (`unwrap`).  Taking the head of the split
covers both branches: with no occurrence the single piece is the whole
string. -/
def parse_int (s : String) : Except Fail Int :=
  match parse_i32 ((str_split s "px").headD s) with
  | some v => Except.ok v
  | none => Except.error Fail.panic

/-- The u32 computation `(week - chrono::Local::now().iso_week().week()) * 7`
at src/main.rs:375, with release-profile wrapping semantics: both the
subtraction and the multiplication are taken modulo 2^32.  Faithful for
`week`, `realWeek` below 2^32, which holds of every u32. -/
def week_overflow (week realWeek : Nat) : Nat :=
  ((week + 4294967296 - realWeek) % 4294967296) * 7 % 4294967296

/-- The navigation guard `if (week - real_week) > 0` at src/main.rs:209,
again a wrapping u32 subtraction. -/
def nav_guard (week realWeek : Nat) : Bool :=
  (week + 4294967296 - realWeek) % 4294967296 > 0

/-- Day number of the most recent Monday (src/main.rs:366-369): with the
epoch placed on a Monday, chrono's `num_days_from_monday` for day `d` is
`d mod 7`, and the Monday branch of the `match` subtracts nothing, which
coincides with subtracting `d mod 7 = 0`. -/
def monday_of (d : Int) : Int := d - Int.emod d 7

/-- Function `convert_events` (src/main.rs:354-386).  `x`, `y`, `height`
are the cell's pixel position and pixel height, `planning_container` the
two-element width/height vector, `week` the worker's target ISO week,
`realWeek` the ISO week read from the wall clock inside the call, and
`nowDay` the wall-clock day number.  Returns start (minutes since epoch)
and duration (minutes; the Rust `Duration` is built with
`Duration::minutes`).  Indexing an undersized container vector and
dividing by a zero per-unit ratio panic, as in Rust. -/
def convert_events (x y height : Int) (planning_container : List Int)
    (week realWeek : Nat) (nowDay : Int) : Except Fail (Int × Int) := do
  let c1 ← idx planning_container 1
  let c0 ← idx planning_container 0
  let half_hour_in_px : Int := Int.tdiv c1 28
  let day_in_px : Int := Int.tdiv c0 7
  if half_hour_in_px = 0 ∨ day_in_px = 0 then
    Except.error Fail.panic
  else
    let date : Int := monday_of nowDay * 1440 + 420
    let start : Int := date + Int.tdiv x day_in_px * 1440
      + Int.tdiv y half_hour_in_px * 30 - 60
      + (week_overflow week realWeek : Int) * 1440
    Except.ok (start, Int.tdiv height half_hour_in_px * 30)

/-- The line-flattening applied to the text blob once the opening marker
has been removed (src/main.rs:323-332): split on the bold-closing pair,
split every piece on plain line breaks, then `Vec::pop` the trailing
closing-tag piece. -/
def event_lines (s : String) : List String :=
  ((str_split s "</b><br>").flatMap (fun t => str_split t "<br>")).dropLast

/-- Record `PlanningEvent` (src/main.rs:44-52).  `start` is in minutes
since the epoch, `duration_s` in minutes (see `convert_events`); the
record has exactly these six fields — in particular no field for group
tags. -/
structure PlanningEvent where
  start : Int
  duration_s : Int
  cours : String
  prof : String
  salle : String
  notes : String
  deriving DecidableEq, Repr

/-- Function `parse_event` (src/main.rs:297-351) on one attribute triple
(position style, height style, text content).  The position is read from
the style string, the geometry converted, then the flattened text lines
are consumed positionally: three `Vec::remove(0)` calls (course, room,
instructor) and one `pop().unwrap()` (notes, with line feeds replaced by
spaces); fewer than four lines make one of those panic. -/
def parse_event (cell : String × String × String) (week realWeek : Nat)
    (planning_container : List Int) (nowDay : Int) : Except Fail PlanningEvent := do
  let ep1 ← ctx (str_split cell.1 "absolute; ").getLast?
    "Failed to split div.event style attribute (absolute)"
  let ep2 ← ctx (str_split ep1 "left: ").getLast?
    "Failed to split div.event style attribute (left)"
  let event_position ← (str_split ep2 "px; top: ").mapM parse_int
  let event_height ← ctx (str_split cell.2.1 "height:").getLast?
    "Failed to split table.event style attribute (height)"
  let data1 ← ctx (str_split cell.2.2 "eventText\">").getLast?
    "Failed to split div.eventText content (eventText)"
  let event_data := event_lines data1
  let x ← idx event_position 0
  let y ← idx event_position 1
  let h ← parse_int event_height
  let sd ← convert_events x y h planning_container week realWeek nowDay
  match event_data with
  | c :: s :: p :: rest =>
    match rest.getLast? with
    | some n =>
      Except.ok ⟨sd.1, sd.2, c, p, s, String.intercalate " " (str_split n "\n")⟩
    | none => Except.error Fail.panic
  | _ => Except.error Fail.panic

/-- Function `get_raw_planning_events` (src/main.rs:276-294): an empty
cell list is reported as the error "No event for week N"; otherwise the
cells are parsed left to right, the first failure aborting the loop via
the question-mark operator (a panic escapes it). -/
def get_raw_planning_events (elements : List (String × String × String))
    (planning_container : List Int) (week realWeek : Nat) (nowDay : Int) :
    Except Fail (List PlanningEvent) :=
  if elements.isEmpty then
    Except.error (Fail.err ("No event for week " ++ toString week))
  else
    elements.mapM (fun e => parse_event e week realWeek planning_container nowDay)

/-- Outcome of one spawned per-week task as observed through its
`JoinHandle`: the task returned `Ok`, returned `Err`, or panicked (the
join then yields a `JoinError`). -/
inductive TaskResult (α : Type) where
  | ok : α → TaskResult α
  | err : String → TaskResult α
  | panicked : TaskResult α
  deriving DecidableEq, Repr

/-- Summary of one worker's browser interaction (the external page
accessor): either some navigation / pagination / element-access
operation returned an error, which the task body propagates with the
question-mark operator, or the worker collected a (possibly empty) list
of attribute triples — a failed wait for event cells leaves the list
empty (src/main.rs:223-247). -/
inductive TabFetch where
  | navErr : String → TabFetch
  | cells : List (String × String × String) → TabFetch
  deriving DecidableEq, Repr

/-- Body of one spawned per-week task (src/main.rs:205-256): a browser
error makes the task return `Err`; otherwise `get_raw_planning_events`
runs on the collected cells, its `Err` outcome is logged and replaced by
`Ok` of the empty list, its `Ok` outcome returned, and a panic escapes
as a panicked task. -/
def week_worker (fetch : TabFetch) (planning_container : List Int)
    (week realWeek : Nat) (nowDay : Int) : TaskResult (List PlanningEvent) :=
  match fetch with
  | TabFetch.navErr m => TaskResult.err m
  | TabFetch.cells cs =>
    match get_raw_planning_events cs planning_container week realWeek nowDay with
    | Except.ok evs => TaskResult.ok evs
    | Except.error Fail.panic => TaskResult.panicked
    | Except.error (Fail.err _) => TaskResult.ok []

/-- Message of the `JoinError` produced by awaiting a panicked task. -/
def join_error_msg : String := "JoinError: task panicked"

/-- The merge loop of `scrape_ut1_planning` (src/main.rs:261-271),
sequentially awaiting each worker: a panicked task's `JoinError` is
propagated by the question-mark operator and aborts the whole merge, an
`Err` outcome is logged and dropped, an `Ok` outcome is appended
(extending with an empty vector is skipped by the `is_empty` test but
yields the same list). -/
def merge_go (acc : List PlanningEvent) :
    List (TaskResult (List PlanningEvent)) → Except Fail (List PlanningEvent)
  | [] => Except.ok acc
  | TaskResult.panicked :: _ => Except.error (Fail.err join_error_msg)
  | TaskResult.ok evs :: rest => merge_go (acc ++ evs) rest
  | TaskResult.err _ :: rest => merge_go acc rest

/-- Merge of all worker outcomes, starting from the empty vector. -/
def merge_results (rs : List (TaskResult (List PlanningEvent))) :
    Except Fail (List PlanningEvent) :=
  merge_go [] rs

/-- The initial container-dimension read (src/main.rs:151-181): the
element's attribute vector (absent attributes are an error), attribute
number 11 (the style string; absence is an error), then the style string
is cut after "hidden; ", cut after "width: ", split on "px; height: "
and each piece parsed with `parse_int` (whose failure panics). -/
def read_container (attrs : Option (List String)) : Except Fail (List Int) := do
  let l ← ctx attrs "Failed to get planning container attributes"
  let a ← ctx l[11]? "Failed to get planning container style attribute"
  let b ← ctx (str_split a "hidden; ").getLast?
    "Failed to get planning container style attribute"
  let c ← ctx (str_split b "width: ").getLast?
    "Failed to get planning container style attribute"
  (str_split c "px; height: ").mapM parse_int

/-- Number of spawned workers (src/main.rs:185-199): the login tab plus
one new tab per iteration of `for _i in 1..nb_weeks_to_scrape`; for a
week count at most 1 that range is empty and exactly one worker runs. -/
def num_tabs (nb : Int) : Nat := 1 + (nb - 1).toNat

/-- The list of worker outcomes: worker `i` targets ISO week
`week0 + i` (the orchestrator increments `week` after each spawn) and
interacts with its own tab, summarised by `fetches i`. -/
def worker_results (fetches : Nat → TabFetch) (planning_container : List Int)
    (nb : Int) (week0 realWeek : Nat) (nowDay : Int) :
    List (TaskResult (List PlanningEvent)) :=
  (List.range (num_tabs nb)).map
    (fun i => week_worker (fetches i) planning_container (week0 + i) realWeek nowDay)

/-- Function `scrape_ut1_planning` (src/main.rs:114-274) from the
container read onward (browser launch and login are the external
boundary): read and parse the container dimensions (failure aborts the
run), spawn one worker per week, and merge the outcomes. -/
def scrape_ut1_planning (attrs : Option (List String)) (nb : Int)
    (fetches : Nat → TabFetch) (week0 realWeek : Nat) (nowDay : Int) :
    Except Fail (List PlanningEvent) := do
  let planning_container ← read_container attrs
  merge_results (worker_results fetches planning_container nb week0 realWeek nowDay)

/-- Modelled from the spec words of claim C1, for comparison with the
source-derived `convert_events`: the per-unit ratios `width/7` and
`height/28` are exact rationals and each quotient is floored once at the
end, so the weekday offset is ⌊x·7/width⌋ and the half-hour offsets are
⌊y·28/height⌋ and ⌊height·28/height⌋; the start adds the weekday, the
time offset, seven days per week of delta, and the fixed minus-one-hour
correction to the Monday 07:00 anchor. -/
def decode_per_spec (x y height w h weekDelta anchor : Int) : Int × Int :=
  (anchor + Int.ediv (x * 7) w * 1440 + Int.ediv (y * 28) h * 30
    + weekDelta * 7 * 1440 - 60,
   Int.ediv (height * 28) h * 30)

/-- Successful worker outcomes, in order: the event lists of the tasks
that returned `Ok` (failed tasks contribute nothing). -/
def ok_lists (rs : List (TaskResult (List PlanningEvent))) : List (List PlanningEvent) :=
  rs.filterMap (fun r =>
    match r with
    | TaskResult.ok l => some l
    | _ => none)

/-- A well-formed concrete cell: style, height style, and a text blob
with exactly four usable lines (title, room, instructor, notes). -/
def goodCell : String × String × String :=
  ("position: absolute; left: 250px; top: 100px;", "height:60px",
   "eventText\">Algebra</b><br>Room 1<br>Smith<br>ok<br></div>")

/-- A malformed concrete cell: its text blob flattens to a single usable
line, fewer than the four the positional parser consumes. -/
def badCell : String × String × String :=
  ("position: absolute; left: 0px; top: 0px;", "height:20px",
   "eventText\">X</b><br></div>")

/-- A concrete cell whose text blob has six usable lines: title, room,
instructor, two group tags G1 and G2, and notes. -/
def groupCell : String × String × String :=
  ("position: absolute; left: 250px; top: 100px;", "height:60px",
   "eventText\">Alg</b><br>R1<br>Dr<br>G1<br>G2<br>note<br></div>")

/-- A concrete attribute vector whose entry 11 carries the container
style of a 700 by 560 pixel grid. -/
def attrsC : List String :=
  List.replicate 11 "" ++ ["overflow: hidden; width: 700px; height: 560px"]

/-- The event record produced from `groupCell`: course, room and
instructor are the first three lines, the notes the last line, and the
group lines G1 and G2 appear in none of the six fields. -/
def c5_event : PlanningEvent :=
  ⟨3390, 90, "Alg", "Dr", "R1", "note"⟩

/-- A concrete fetch assignment for two workers: the first collects the
well-formed cell, the second hits a missing pagination control and its
task returns an error. -/
def fetchesW : Nat → TabFetch := fun i =>
  if i = 0 then TabFetch.cells [goodCell] else TabFetch.navErr "PaginationNotFound"

/-! Small helper lemmas shared by several claims. -/

/-- When the target week is at least the wall-clock week and the span is
realistic, the wrapped u32 computation agrees with the intended
`(week - realWeek) * 7`. -/
theorem week_overflow_of_le (week realWeek : Nat) (h1 : realWeek ≤ week)
    (h2 : week ≤ realWeek + 613566756) :
    week_overflow week realWeek = (week - realWeek) * 7 := by
  unfold week_overflow
  omega

/-- Unfolding of `convert_events` on a two-element container down to the
zero-ratio test (pure definitional reduction of the monadic plumbing). -/
theorem convert_events_reduce (x y height c0 c1 : Int) (week realWeek : Nat)
    (nowDay : Int) :
    convert_events x y height [c0, c1] week realWeek nowDay =
      (if Int.tdiv c1 28 = 0 ∨ Int.tdiv c0 7 = 0 then Except.error Fail.panic
       else Except.ok
        (monday_of nowDay * 1440 + 420 + Int.tdiv x (Int.tdiv c0 7) * 1440
          + Int.tdiv y (Int.tdiv c1 28) * 30 - 60
          + (week_overflow week realWeek : Int) * 1440,
         Int.tdiv height (Int.tdiv c1 28) * 30)) := rfl

/-- Truncating division of cast naturals is the cast of natural division
(both truncate toward zero and everything is nonnegative). -/
theorem tdiv_ofNat (a b : Nat) :
    Int.tdiv (a : Int) (b : Int) = ((a / b : Nat) : Int) := rfl

/-- Specialisation of `tdiv_ofNat` to the literal divisor 28. -/
theorem tdiv_cast28 (a : Nat) :
    Int.tdiv (a : Int) 28 = ((a / 28 : Nat) : Int) := rfl

/-- Specialisation of `tdiv_ofNat` to the literal divisor 7. -/
theorem tdiv_cast7 (a : Nat) :
    Int.tdiv (a : Int) 7 = ((a / 7 : Nat) : Int) := rfl

/-- Claim C1 (counterexample): the decoder does not floor an exact
rational division once at the end — it truncates the per-unit ratios
first.  For a 699-pixel-wide container the exact day width is 699/7 =
99.857…, so the spec formula puts x = 499 in weekday ⌊499·7/699⌋ = 4,
but the code computes 499 / (699 / 7) = 499 / 99 = 5; the two start
times differ by a day. -/
theorem claim_c1_counterexample :
    convert_events 499 0 0 [699, 560] 1 1 0 = Except.ok (7560, 0) ∧
    decode_per_spec 499 0 0 699 560 0 420 = (6120, 0) ∧
    (7560 : Int) ≠ 6120 :=
  ⟨rfl, rfl, by decide⟩

/-- Claim C1 (amended): for a well-formed container (width at least 7,
height at least 28, both under 2^24 so the f32 round-trip is exact) and
nonnegative cell geometry, with the target week at least the wall-clock
week, the decoder returns weekday_offset = x / (width/7),
time_offset = (y / (height/28))·30 and duration = (h / (height/28))·30
where the per-unit ratios width/7 and height/28 are themselves truncated
integer divisions (not exact rationals floored once), and
start = monday_anchor_7am + weekday days + time_offset + 7·(week−realWeek)
days − 1 hour. -/
theorem claim_c1_amended (x y h w hh week realWeek : Nat) (nowDay : Int)
    (hw : 7 ≤ w) (hhh : 28 ≤ hh) (hwf : w < 16777216) (hhf : hh < 16777216)
    (hwk : realWeek ≤ week) (hspan : week ≤ realWeek + 127) :
    convert_events (x : Int) (y : Int) (h : Int) [(w : Int), (hh : Int)]
        week realWeek nowDay =
      Except.ok
        (monday_of nowDay * 1440 + 420 + ((x / (w / 7) : Nat) : Int) * 1440
          + ((y / (hh / 28) : Nat) : Int) * 30 - 60
          + ((week - realWeek : Nat) : Int) * 7 * 1440,
         ((h / (hh / 28) : Nat) : Int) * 30) := by
  have hcond : ¬(((hh / 28 : Nat) : Int) = 0 ∨ ((w / 7 : Nat) : Int) = 0) := by
    simp only [Nat.cast_eq_zero]
    omega
  rw [convert_events_reduce, tdiv_cast28 hh, tdiv_cast7 w, if_neg hcond,
    tdiv_ofNat x (w / 7), tdiv_ofNat y (hh / 28), tdiv_ofNat h (hh / 28),
    week_overflow_of_le week realWeek hwk (by omega)]
  simp only [Except.ok.injEq, Prod.mk.injEq]
  refine ⟨?_, trivial⟩
  push_cast
  ring

/-- Claim C1 amended, instantiated: container 700×560, cell (250, 100),
height 60, one week ahead of wall-clock week 37. -/
theorem claim_c1_amended_witness :
    (7 : Nat) ≤ 700 ∧ (28 : Nat) ≤ 560 ∧ (37 : Nat) ≤ 38 ∧
    convert_events (250 : Int) (100 : Int) (60 : Int) [(700 : Int), (560 : Int)]
        38 37 0 =
      Except.ok
        (monday_of 0 * 1440 + 420 + ((250 / (700 / 7) : Nat) : Int) * 1440
          + ((100 / (560 / 28) : Nat) : Int) * 30 - 60
          + ((38 - 37 : Nat) : Int) * 7 * 1440,
         ((60 / (560 / 28) : Nat) : Int) * 30) :=
  ⟨by decide, by decide, by decide,
   claim_c1_amended 250 100 60 700 560 38 37 0 (by decide) (by decide)
     (by decide) (by decide) (by decide) (by decide)⟩

/-- Claim C2 (confirmed): for container 700×560 (day = 100 px, half hour
= 20 px), cell x = 250, y = 100, block height 60 and week delta zero,
the decoder yields weekday offset 2, time offset 150 minutes and
duration 90 minutes, so with the Monday 07:00 anchor and the fixed
minus-one-hour correction the start is Wednesday 08:30 of the anchor
week: the start equals (monday + 2 days) at minute 510 = 08:30, whose
day is two past Monday and whose minute-of-day is 510. -/
theorem claim_c2 (w : Nat) (nowDay : Int) :
    convert_events 250 100 60 [700, 560] w w nowDay =
      Except.ok ((monday_of nowDay + 2) * 1440 + 510, 90) ∧
    ((monday_of nowDay + 2) * 1440 + 510) % 1440 = 510 ∧
    ((monday_of nowDay + 2) * 1440 + 510) / 1440 = monday_of nowDay + 2 := by
  refine ⟨?_, ?_, ?_⟩
  · have hwo : week_overflow w w = 0 := by unfold week_overflow; omega
    rw [convert_events_reduce, if_neg (by decide), hwo]
    simp only [show Int.tdiv 250 (Int.tdiv 700 7) = 2 from rfl,
      show Int.tdiv 100 (Int.tdiv 560 28) = 5 from rfl,
      show Int.tdiv 60 (Int.tdiv 560 28) = 3 from rfl,
      Nat.cast_zero, Except.ok.injEq, Prod.mk.injEq]
    refine ⟨by ring, by norm_num⟩
  · rw [add_comm ((monday_of nowDay + 2) * 1440) 510, Int.add_mul_emod_self]
    decide
  · rw [add_comm ((monday_of nowDay + 2) * 1440) 510,
      Int.add_mul_ediv_right 510 (monday_of nowDay + 2) (by norm_num)]
    omega

/-- Claim C9 (counterexample): the decoder is not independent of when it
is called — it reads the wall clock internally.  Two calls with
identical geometry inputs and identical week numbers, one made on day 0
and one a week later on day 7, return starts a week apart. -/
theorem claim_c9_counterexample :
    convert_events 0 0 0 [700, 560] 1 1 0 = Except.ok (360, 0) ∧
    convert_events 0 0 0 [700, 560] 1 1 7 = Except.ok (10440, 0) ∧
    (360 : Int) ≠ 10440 :=
  ⟨rfl, rfl, by decide⟩

/-- Claim C9 (amended): the decoder has no hidden state beyond the wall
clock: its result is a pure function of the geometry inputs, the week
numbers, and the Monday of the wall-clock day, so two calls with
identical inputs made at instants sharing the same most recent Monday
(and the same wall-clock ISO week) return identical results. -/
theorem claim_c9_amended (x y h : Int) (pc : List Int) (week realWeek : Nat)
    (d d' : Int) (hm : monday_of d = monday_of d') :
    convert_events x y h pc week realWeek d =
      convert_events x y h pc week realWeek d' := by
  unfold convert_events
  rw [hm]

/-- Claim C9 amended, instantiated: days 1 and 3 share Monday 0, and the
two decoder calls agree. -/
theorem claim_c9_amended_witness :
    monday_of 1 = monday_of 3 ∧
    convert_events 5 5 5 [700, 560] 2 2 1 = convert_events 5 5 5 [700, 560] 2 2 3 :=
  ⟨by decide, claim_c9_amended 5 5 5 [700, 560] 2 2 1 3 (by decide)⟩

/-- Claim C10 (confirmed): the week-offset computation is a wrapping
unsigned 32-bit subtraction.  When the target week is below the
wall-clock ISO week (as across a year boundary) the subtraction wraps
modulo 2^32: the computed day offset is 2^32 − 7·(realWeek − week) days,
an astronomically large value (at least 2^31), and the line-209
navigation guard also fires; the intended offset 7·(week − realWeek) is
computed exactly when the target week is at least the wall-clock week
(for any realistic span). -/
theorem claim_c10 (week realWeek : Nat) (h1 : 1 ≤ week)
    (h53 : realWeek ≤ 53) (hup : week ≤ 613566756) :
    (week < realWeek →
      week_overflow week realWeek = 4294967296 - 7 * (realWeek - week) ∧
      2147483648 ≤ week_overflow week realWeek ∧
      nav_guard week realWeek = true) ∧
    (realWeek ≤ week → week_overflow week realWeek = 7 * (week - realWeek)) := by
  constructor
  · intro hlt
    have heq : week_overflow week realWeek = 4294967296 - 7 * (realWeek - week) := by
      unfold week_overflow
      omega
    refine ⟨heq, ?_, ?_⟩
    · rw [heq]
      omega
    · unfold nav_guard
      simp only [decide_eq_true_eq, gt_iff_lt]
      omega
  · intro hge
    unfold week_overflow
    omega

/-- Claim C10, instantiated at target week 1 against wall-clock week 52
(the year-boundary scenario) and at target week 60 against wall-clock
week 53. -/
theorem claim_c10_witness :
    (week_overflow 1 52 = 4294967296 - 7 * 51 ∧
      2147483648 ≤ week_overflow 1 52 ∧ nav_guard 1 52 = true) ∧
    week_overflow 60 53 = 7 * 7 :=
  ⟨(claim_c10 1 52 (by decide) (by decide) (by decide)).1 (by decide),
   (claim_c10 60 53 (by decide) (by decide) (by decide)).2 (by decide)⟩

/-- Reading the container successfully reduces the scrape to the merge of
the worker outcomes. -/
theorem scrape_ok_container (attrs : Option (List String)) (nb : Int)
    (fetches : Nat → TabFetch) (week0 realWeek : Nat) (nowDay : Int)
    (cont : List Int) (hc : read_container attrs = Except.ok cont) :
    scrape_ut1_planning attrs nb fetches week0 realWeek nowDay =
      merge_results (worker_results fetches cont nb week0 realWeek nowDay) := by
  unfold scrape_ut1_planning
  rw [hc]
  rfl

/-- A failed container read aborts the scrape with the same error. -/
theorem scrape_err_container (attrs : Option (List String)) (nb : Int)
    (fetches : Nat → TabFetch) (week0 realWeek : Nat) (nowDay : Int)
    (f : Fail) (hc : read_container attrs = Except.error f) :
    scrape_ut1_planning attrs nb fetches week0 realWeek nowDay = Except.error f := by
  unfold scrape_ut1_planning
  rw [hc]
  rfl

/-- The merge loop aborts with the join error as soon as some task
panicked. -/
theorem merge_go_panicked (acc : List PlanningEvent)
    (rs : List (TaskResult (List PlanningEvent)))
    (h : TaskResult.panicked ∈ rs) :
    merge_go acc rs = Except.error (Fail.err join_error_msg) := by
  induction rs generalizing acc with
  | nil => cases h
  | cons r rest ih =>
    cases r with
    | ok l =>
      rcases List.mem_cons.mp h with h1 | h1
      · cases h1
      · exact ih (acc ++ l) h1
    | err m =>
      rcases List.mem_cons.mp h with h1 | h1
      · cases h1
      · exact ih acc h1
    | panicked => rfl

/-- With no panicked task the merge loop returns the accumulated prefix
followed by every successful task's events, in order. -/
theorem merge_go_no_panic (rs : List (TaskResult (List PlanningEvent)))
    (acc : List PlanningEvent) (h : TaskResult.panicked ∉ rs) :
    merge_go acc rs = Except.ok (acc ++ (ok_lists rs).flatten) := by
  induction rs generalizing acc with
  | nil => simp [merge_go, ok_lists]
  | cons r rest ih =>
    cases r with
    | ok l =>
      have h' : TaskResult.panicked ∉ rest := fun hm => h (List.mem_cons_of_mem _ hm)
      show merge_go (acc ++ l) rest = _
      rw [ih (acc ++ l) h']
      simp [ok_lists, List.append_assoc]
    | err m =>
      have h' : TaskResult.panicked ∉ rest := fun hm => h (List.mem_cons_of_mem _ hm)
      show merge_go acc rest = _
      rw [ih acc h']
      rfl
    | panicked => exact absurd (List.mem_cons_self _ _) h

/-- Inserting a successful empty outcome anywhere in the merge changes
nothing. -/
theorem merge_go_ok_nil (xs : List (TaskResult (List PlanningEvent)))
    (acc : List PlanningEvent) (ys : List (TaskResult (List PlanningEvent))) :
    merge_go acc (xs ++ TaskResult.ok [] :: ys) = merge_go acc (xs ++ ys) := by
  induction xs generalizing acc with
  | nil =>
    show merge_go (acc ++ []) ys = merge_go acc ys
    rw [List.append_nil]
  | cons r rest ih =>
    cases r with
    | ok l => exact ih (acc ++ l)
    | err m => exact ih acc
    | panicked => rfl

/-- Claim C3 (counterexample): per-cell parse failures are not isolated.
A week holding one well-formed cell and one malformed sibling does not
return the well-formed cell's event: the malformed cell's parse panics,
the panic surfaces as a join error, and the whole run aborts — while the
same week with only the well-formed cell yields that cell's event. -/
theorem claim_c3_counterexample :
    scrape_ut1_planning (some attrsC) 1
        (fun _ => TabFetch.cells [goodCell, badCell]) 37 37 0
      = Except.error (Fail.err join_error_msg) ∧
    scrape_ut1_planning (some attrsC) 1
        (fun _ => TabFetch.cells [goodCell]) 37 37 0
      = Except.ok [⟨3390, 90, "Algebra", "Smith", "Room 1", "ok"⟩] :=
  ⟨rfl, rfl⟩

/-- Claim C3 (amended): a cell whose parse fails does the opposite of
being skipped: the parse failure is a panic, the worker's task panicks,
and awaiting it propagates a join error that aborts the entire run —
discarding the whole week and every other week as well. -/
theorem claim_c3_amended (attrs : Option (List String)) (cont : List Int)
    (nb : Int) (fetches : Nat → TabFetch) (week0 realWeek : Nat) (nowDay : Int)
    (i : Nat) (cs : List (String × String × String))
    (hc : read_container attrs = Except.ok cont)
    (hi : i < num_tabs nb)
    (hf : fetches i = TabFetch.cells cs)
    (hp : get_raw_planning_events cs cont (week0 + i) realWeek nowDay
      = Except.error Fail.panic) :
    scrape_ut1_planning attrs nb fetches week0 realWeek nowDay
      = Except.error (Fail.err join_error_msg) := by
  have hmem : TaskResult.panicked
      ∈ worker_results fetches cont nb week0 realWeek nowDay := by
    unfold worker_results
    refine List.mem_map.mpr ⟨i, List.mem_range.mpr hi, ?_⟩
    rw [hf]
    have hww : week_worker (TabFetch.cells cs) cont (week0 + i) realWeek nowDay
        = match get_raw_planning_events cs cont (week0 + i) realWeek nowDay with
          | Except.ok evs => TaskResult.ok evs
          | Except.error Fail.panic => TaskResult.panicked
          | Except.error (Fail.err _) => TaskResult.ok [] := rfl
    rw [hww, hp]
  rw [scrape_ok_container attrs nb fetches week0 realWeek nowDay cont hc]
  exact merge_go_panicked [] _ hmem

/-- Claim C3 amended, instantiated: a single week whose only cell is the
malformed one makes the whole run abort with the join error. -/
theorem claim_c3_amended_witness :
    read_container (some attrsC) = Except.ok [700, 560] ∧
    (0 : Nat) < num_tabs 1 ∧
    get_raw_planning_events [badCell] [700, 560] 41 41 0 = Except.error Fail.panic ∧
    scrape_ut1_planning (some attrsC) 1 (fun _ => TabFetch.cells [badCell]) 41 41 0
      = Except.error (Fail.err join_error_msg) :=
  ⟨rfl, by decide, rfl,
   claim_c3_amended (some attrsC) [700, 560] 1 (fun _ => TabFetch.cells [badCell])
     41 41 0 0 [badCell] rfl (by decide) rfl rfl⟩

/-- Claim C6 (confirmed): a worker whose week has zero event cells
returns a successful empty list (the week-level "No event" error is
logged and converted to an empty success), and inserting such an empty
success anywhere among the merged outcomes leaves every other week's
contribution unchanged. -/
theorem claim_c6 :
    (∀ (cont : List Int) (week realWeek : Nat) (nowDay : Int),
      week_worker (TabFetch.cells []) cont week realWeek nowDay
        = TaskResult.ok []) ∧
    (∀ (xs ys : List (TaskResult (List PlanningEvent))),
      merge_results (xs ++ TaskResult.ok [] :: ys) = merge_results (xs ++ ys)) := by
  constructor
  · intro cont week realWeek nowDay
    rfl
  · intro xs ys
    unfold merge_results
    exact merge_go_ok_nil xs [] ys

/-- Claim C7 (confirmed): when some workers fail with ordinary errors
(navigation, pagination, page-accessor failures — task outcomes `err`)
and none panics, the orchestrator still completes successfully and its
output is exactly the concatenation of the succeeding workers' event
lists; the failed weeks are only logged. -/
theorem claim_c7 (attrs : Option (List String)) (cont : List Int) (nb : Int)
    (fetches : Nat → TabFetch) (week0 realWeek : Nat) (nowDay : Int)
    (hc : read_container attrs = Except.ok cont)
    (hnp : TaskResult.panicked ∉ worker_results fetches cont nb week0 realWeek nowDay)
    (_hsome : ∃ r ∈ worker_results fetches cont nb week0 realWeek nowDay,
      ∃ m, r = TaskResult.err m) :
    scrape_ut1_planning attrs nb fetches week0 realWeek nowDay
      = Except.ok
        (ok_lists (worker_results fetches cont nb week0 realWeek nowDay)).flatten := by
  rw [scrape_ok_container attrs nb fetches week0 realWeek nowDay cont hc]
  unfold merge_results
  rw [merge_go_no_panic _ [] hnp]
  rfl

/-- Claim C7, instantiated: of two workers the second fails on a missing
pagination control; the run succeeds with exactly the first worker's
event. -/
theorem claim_c7_witness :
    read_container (some attrsC) = Except.ok [700, 560] ∧
    TaskResult.panicked ∉ worker_results fetchesW [700, 560] 2 37 37 0 ∧
    (∃ r ∈ worker_results fetchesW [700, 560] 2 37 37 0,
      ∃ m, r = TaskResult.err m) ∧
    scrape_ut1_planning (some attrsC) 2 fetchesW 37 37 0
      = Except.ok (ok_lists (worker_results fetchesW [700, 560] 2 37 37 0)).flatten :=
  ⟨rfl, by decide,
   ⟨TaskResult.err "PaginationNotFound", by decide, "PaginationNotFound", rfl⟩,
   claim_c7 (some attrsC) [700, 560] 2 fetchesW 37 37 0 rfl (by decide)
     ⟨TaskResult.err "PaginationNotFound", by decide, "PaginationNotFound", rfl⟩⟩

/-- Claim C8 (counterexample): a run request for zero weeks does not
fail — the original login tab still scrapes the current week, here one
with no cells, and the run returns a successful empty list. -/
theorem claim_c8_counterexample :
    scrape_ut1_planning (some attrsC) 0 (fun _ => TabFetch.cells []) 37 37 0
      = Except.ok [] ∧
    (0 : Int) ≤ 0 :=
  ⟨rfl, by decide⟩

/-- Claim C8 (amended): a week count at most zero does not abort the run
— exactly one worker (the current week) is spawned; within the modelled
boundary the run fails as a whole precisely when the initial container
read fails or some worker's task panics. -/
theorem claim_c8_amended (attrs : Option (List String)) (nb : Int)
    (fetches : Nat → TabFetch) (week0 realWeek : Nat) (nowDay : Int) :
    (nb ≤ 0 → num_tabs nb = 1) ∧
    (∀ f, read_container attrs = Except.error f →
      scrape_ut1_planning attrs nb fetches week0 realWeek nowDay
        = Except.error f) ∧
    (∀ cont, read_container attrs = Except.ok cont →
      ((∃ f, scrape_ut1_planning attrs nb fetches week0 realWeek nowDay
          = Except.error f) ↔
        TaskResult.panicked
          ∈ worker_results fetches cont nb week0 realWeek nowDay)) := by
  refine ⟨?_, ?_, ?_⟩
  · intro h
    unfold num_tabs
    omega
  · intro f hc
    exact scrape_err_container attrs nb fetches week0 realWeek nowDay f hc
  · intro cont hc
    rw [scrape_ok_container attrs nb fetches week0 realWeek nowDay cont hc]
    unfold merge_results
    constructor
    · rintro ⟨f, hf⟩
      by_contra hnp
      rw [merge_go_no_panic _ [] hnp] at hf
      cases hf
    · intro hm
      exact ⟨Fail.err join_error_msg, merge_go_panicked [] _ hm⟩

/-- Claim C8 amended, instantiated at week count zero with a good
container and a cell-less current week. -/
theorem claim_c8_amended_witness :
    num_tabs 0 = 1 ∧
    ((∃ f, scrape_ut1_planning (some attrsC) 0 (fun _ => TabFetch.cells [])
        38 38 0 = Except.error f) ↔
      TaskResult.panicked
        ∈ worker_results (fun _ => TabFetch.cells []) [700, 560] 0 38 38 0) :=
  ⟨(claim_c8_amended (some attrsC) 0 (fun _ => TabFetch.cells []) 38 38 0).1
     (by decide),
   (claim_c8_amended (some attrsC) 0 (fun _ => TabFetch.cells []) 38 38 0).2.2
     [700, 560] rfl⟩

/-- Monadic plumbing: binding a successful `Except` applies the
continuation. -/
theorem except_bind_ok {α β : Type} (a : α) (f : α → Except Fail β) :
    Bind.bind (Except.ok a) f = f a := rfl

/-- A context step on a present option succeeds with its value. -/
theorem ctx_some {α : Type} (o : Option α) (a : α) (m : String)
    (h : o = some a) : ctx o m = Except.ok a := by
  rw [h]
  rfl

/-- An in-bounds vector access succeeds with the stored value. -/
theorem idx_some {α : Type} (l : List α) (i : Nat) (a : α)
    (h : l[i]? = some a) : idx l i = Except.ok a := by
  unfold idx
  rw [h]

/-- Claim C4 (counterexample): on a blob with fewer than four usable
lines the parser does not return an error value — it panics (modelled
as the distinguished panic outcome, produced here by the out-of-bounds
`Vec::remove`), and no `MalformedEventText` error value exists. -/
theorem claim_c4_counterexample :
    parse_event badCell 37 37 [700, 560] 0 = Except.error Fail.panic ∧
    Fail.panic ≠ Fail.err "MalformedEventText" :=
  ⟨rfl, by decide⟩

/-- Claim C4 (amended): for every text blob whose flattened line list
has fewer than four usable lines (and whose geometry fields decode
fine), the parser panics — via `Vec::remove(0)` out of bounds or
`unwrap` on an empty `pop` — instead of returning a
`MalformedEventText` error value, which does not exist in the code. -/
theorem claim_c4_amended (st hs dt st1 st2 hs1 dt1 : String) (pos : List Int)
    (x y hv : Int) (cont : List Int) (week realWeek : Nat) (nowDay : Int)
    (sd : Int × Int)
    (h1 : (str_split st "absolute; ").getLast? = some st1)
    (h2 : (str_split st1 "left: ").getLast? = some st2)
    (h3 : (str_split st2 "px; top: ").mapM parse_int = Except.ok pos)
    (h4 : pos[0]? = some x) (h5 : pos[1]? = some y)
    (h6 : (str_split hs "height:").getLast? = some hs1)
    (h7 : parse_int hs1 = Except.ok hv)
    (h8 : (str_split dt "eventText\">").getLast? = some dt1)
    (h9 : convert_events x y hv cont week realWeek nowDay = Except.ok sd)
    (hlen : (event_lines dt1).length < 4) :
    parse_event (st, hs, dt) week realWeek cont nowDay
      = Except.error Fail.panic := by
  simp only [parse_event, ctx_some _ _ _ h1, ctx_some _ _ _ h2, h3,
    ctx_some _ _ _ h6, h7, ctx_some _ _ _ h8, idx_some _ _ _ h4,
    idx_some _ _ _ h5, h9, except_bind_ok]
  generalize hev : event_lines dt1 = L at hlen ⊢
  rcases L with _ | ⟨a, _ | ⟨b, _ | ⟨c, _ | ⟨d, t⟩⟩⟩⟩
  · rfl
  · rfl
  · rfl
  · rfl
  · simp only [List.length_cons] at hlen
    omega

/-- Claim C4 amended, instantiated on the malformed cell (one usable
line) in week 5. -/
theorem claim_c4_amended_witness :
    (str_split "position: absolute; left: 0px; top: 0px;" "absolute; ").getLast?
      = some "left: 0px; top: 0px;" ∧
    (str_split "left: 0px; top: 0px;" "left: ").getLast? = some "0px; top: 0px;" ∧
    (str_split "0px; top: 0px;" "px; top: ").mapM parse_int
      = Except.ok [0, 0] ∧
    (str_split "height:20px" "height:").getLast? = some "20px" ∧
    parse_int "20px" = Except.ok 20 ∧
    (str_split "eventText\">X</b><br></div>" "eventText\">").getLast?
      = some "X</b><br></div>" ∧
    convert_events 0 0 20 [700, 560] 5 5 0 = Except.ok (360, 30) ∧
    (event_lines "X</b><br></div>").length < 4 ∧
    parse_event badCell 5 5 [700, 560] 0 = Except.error Fail.panic :=
  ⟨rfl, rfl, rfl, rfl, rfl, rfl, rfl, by decide,
   claim_c4_amended "position: absolute; left: 0px; top: 0px;" "height:20px"
     "eventText\">X</b><br></div>" "left: 0px; top: 0px;" "0px; top: 0px;"
     "20px" "X</b><br></div>" [0, 0] 0 0 20 [700, 560] 5 5 0 (360, 30)
     rfl rfl rfl rfl rfl rfl rfl rfl rfl (by decide)⟩

/-- Claim C5 (counterexample): a blob with six usable lines — title,
room, instructor, group tags G1 and G2, notes — produces a record in
which the group tags appear nowhere: the produced `PlanningEvent` has no
group field and its four string fields are the first three lines and the
last line only. -/
theorem claim_c5_counterexample :
    parse_event groupCell 37 37 [700, 560] 0 = Except.ok c5_event ∧
    c5_event.cours ≠ "G1" ∧ c5_event.salle ≠ "G1" ∧ c5_event.prof ≠ "G1" ∧
    c5_event.notes ≠ "G1" ∧ c5_event.cours ≠ "G2" ∧ c5_event.salle ≠ "G2" ∧
    c5_event.prof ≠ "G2" ∧ c5_event.notes ≠ "G2" :=
  ⟨rfl, by decide, by decide, by decide, by decide, by decide, by decide,
   by decide, by decide⟩

/-- Claim C5 (amended): with at least four usable lines the parser
assigns fields positionally — first line course, second room, third
instructor, last line notes (line feeds replaced by spaces) — and every
line in between is discarded: the record has no group field, so no group
tags are present in the produced event. -/
theorem claim_c5_amended (st hs dt st1 st2 hs1 dt1 : String) (pos : List Int)
    (x y hv : Int) (cont : List Int) (week realWeek : Nat) (nowDay : Int)
    (sd : Int × Int) (c s p n : String) (rest : List String)
    (h1 : (str_split st "absolute; ").getLast? = some st1)
    (h2 : (str_split st1 "left: ").getLast? = some st2)
    (h3 : (str_split st2 "px; top: ").mapM parse_int = Except.ok pos)
    (h4 : pos[0]? = some x) (h5 : pos[1]? = some y)
    (h6 : (str_split hs "height:").getLast? = some hs1)
    (h7 : parse_int hs1 = Except.ok hv)
    (h8 : (str_split dt "eventText\">").getLast? = some dt1)
    (h9 : convert_events x y hv cont week realWeek nowDay = Except.ok sd)
    (hev : event_lines dt1 = c :: s :: p :: rest)
    (hlast : rest.getLast? = some n) :
    parse_event (st, hs, dt) week realWeek cont nowDay
      = Except.ok ⟨sd.1, sd.2, c, p, s,
          String.intercalate " " (str_split n "\n")⟩ := by
  simp only [parse_event, ctx_some _ _ _ h1, ctx_some _ _ _ h2, h3,
    ctx_some _ _ _ h6, h7, ctx_some _ _ _ h8, idx_some _ _ _ h4,
    idx_some _ _ _ h5, h9, except_bind_ok, hev, hlast]

/-- Claim C5 amended, instantiated on the six-line cell in week 36: the
middle lines G1 and G2 do not reach the record. -/
theorem claim_c5_amended_witness :
    (str_split "position: absolute; left: 250px; top: 100px;" "absolute; ").getLast?
      = some "left: 250px; top: 100px;" ∧
    (str_split "250px; top: 100px;" "px; top: ").mapM parse_int
      = Except.ok [250, 100] ∧
    event_lines "Alg</b><br>R1<br>Dr<br>G1<br>G2<br>note<br></div>"
      = "Alg" :: "R1" :: "Dr" :: ["G1", "G2", "note"] ∧
    ["G1", "G2", "note"].getLast? = some "note" ∧
    parse_event groupCell 36 36 [700, 560] 0
      = Except.ok ⟨3390, 90, "Alg", "Dr", "R1",
          String.intercalate " " (str_split "note" "\n")⟩ :=
  ⟨rfl, rfl, rfl, rfl,
   claim_c5_amended "position: absolute; left: 250px; top: 100px;" "height:60px"
     "eventText\">Alg</b><br>R1<br>Dr<br>G1<br>G2<br>note<br></div>"
     "left: 250px; top: 100px;" "250px; top: 100px;" "60px"
     "Alg</b><br>R1<br>Dr<br>G1<br>G2<br>note<br></div>" [250, 100] 250 100 60
     [700, 560] 36 36 0 (3390, 90) "Alg" "R1" "Dr" "note" ["G1", "G2", "note"]
     rfl rfl rfl rfl rfl rfl rfl rfl rfl rfl rfl⟩
